import Mathlib

/-!
Verification of the NB-Scraper reusable core (src/app/utils.ts and its use in
src/app/scrapers/pinterest.ts): the response envelope, the error classifier,
the resilient request executor with retry/backoff, and the required-parameter
validator, shallowly embedded in Lean.

The embedding models JavaScript runtime values as far as the code inspects
them, and models the HTTP transport (axios) as a function from the attempt
index to that attempt's outcome, so that the retry loop of makeRequest can be
reasoned about for arbitrary transport behaviours.
-/

namespace NBScraper

/-- JavaScript runtime values, as far as the validator and the adapters
inspect them: undefined, null, strings, finite numbers, NaN, booleans and a
generic (non-null) object. -/
inductive JSValue : Type
  | undefined
  | null
  | string (s : String)
  | number (n : Int)
  | nan
  | boolean (b : Bool)
  | object
deriving DecidableEq, Repr

/-- Characters removed by JavaScript's String.prototype.trim, restricted to
the ASCII whitespace the repository's inputs contain. -/
def jsWhitespace (c : Char) : Bool :=
  c == ' ' || c == '\t' || c == '\n' || c == '\r'

/-- Model of JavaScript's String.prototype.trim: drop leading and trailing
whitespace. Implemented over the character list so that it evaluates inside
the kernel. -/
def jsTrim (s : String) : String :=
  ⟨((s.toList.dropWhile jsWhitespace).reverse.dropWhile jsWhitespace).reverse⟩

/-- Whether the character list `p` stands at the head of `cs`. -/
def charsLeadWith : List Char → List Char → Bool
  | [], _ => true
  | _ :: _, [] => false
  | p :: ps, c :: cs => p == c && charsLeadWith ps cs

/-- Whether the character list `p` occurs contiguously inside `cs`. -/
def charsInclude (p : List Char) : List Char → Bool
  | [] => charsLeadWith p []
  | c :: cs => charsLeadWith p (c :: cs) || charsInclude p cs

/-- Model of JavaScript's String.prototype.includes: `jsIncludes s sub` is
true when `sub` occurs as a contiguous substring of `s`. -/
def jsIncludes (s sub : String) : Bool :=
  charsInclude sub.toList s.toList

/-- Property access `params[param]` on the params object of
validateRequiredParams (src/app/utils.ts:186): an absent key reads as
undefined. -/
def jsGet (params : List (String × JSValue)) (key : String) : JSValue :=
  match params.find? (fun kv => kv.fst == key) with
  | some kv => kv.snd
  | none => .undefined

/-- The check `typeof value === 'string' && value.trim() === ''` of
src/app/utils.ts:192. -/
def isEmptyTrimmedString : JSValue → Bool
  | .string s => jsTrim s == ""
  | _ => false

/-- The body of the validation loop of validateRequiredParams
(src/app/utils.ts:185-195) for one required name: `some message` when the
function would throw `new Error(message)` for this name, `none` when the
name passes. The first guard is `value === undefined || value === null ||
value === ''`; the second is `typeof value === 'string' &&
value.trim() === ''`. -/
def checkRequired (param : String) (value : JSValue) : Option String :=
  if value = .undefined ∨ value = .null ∨ value = .string "" then
    some ("Parameter '" ++ param ++ "' is required and cannot be empty")
  else if isEmptyTrimmedString value then
    some ("Parameter '" ++ param ++ "' cannot be an empty string")
  else
    none

/-- validateRequiredParams (src/app/utils.ts:181-196): walk the required
names in order; throw (return `.error message`) at the first name whose value
fails a check, return normally (`.ok ()`) when all pass. -/
def validateRequiredParams (params : List (String × JSValue)) :
    List String → Except String Unit
  | [] => .ok ()
  | p :: rest =>
    match checkRequired p (jsGet params p) with
    | some msg => .error msg
    | none => validateRequiredParams params rest

/-- Values the validator rejects: absent (undefined), null, or a string that
is empty or whitespace-only (its trim is empty). The empty string is covered
because its trim is itself. -/
def invalidValue : JSValue → Bool
  | .undefined => true
  | .null => true
  | .string s => jsTrim s == ""
  | _ => false

/-- Whether an `Except` computation ended in a thrown error. -/
def throws {ε α : Type} : Except ε α → Bool
  | .error _ => true
  | .ok _ => false

/-- The closed error taxonomy of src/app/types.ts (enum ScraperErrorType);
each member's runtime value is its own name as a string. -/
inductive ScraperErrorType : Type
  | NETWORK_ERROR
  | INVALID_PARAMETER
  | INVALID_INPUT
  | INVALID_RESPONSE
  | RATE_LIMITED
  | SERVICE_UNAVAILABLE
  | AUTH_ERROR
  | PARSE_ERROR
  | IMAGE_GENERATION_ERROR
  | API_ERROR
  | DOWNLOAD_ERROR
  | NOT_FOUND
  | QUALITY_UNAVAILABLE
  | UNKNOWN_ERROR
deriving DecidableEq, Repr

/-- The string value of a ScraperErrorType member, as interpolated into the
template literal of src/app/utils.ts:93. -/
def ScraperErrorType.toName : ScraperErrorType → String
  | .NETWORK_ERROR => "NETWORK_ERROR"
  | .INVALID_PARAMETER => "INVALID_PARAMETER"
  | .INVALID_INPUT => "INVALID_INPUT"
  | .INVALID_RESPONSE => "INVALID_RESPONSE"
  | .RATE_LIMITED => "RATE_LIMITED"
  | .SERVICE_UNAVAILABLE => "SERVICE_UNAVAILABLE"
  | .AUTH_ERROR => "AUTH_ERROR"
  | .PARSE_ERROR => "PARSE_ERROR"
  | .IMAGE_GENERATION_ERROR => "IMAGE_GENERATION_ERROR"
  | .API_ERROR => "API_ERROR"
  | .DOWNLOAD_ERROR => "DOWNLOAD_ERROR"
  | .NOT_FOUND => "NOT_FOUND"
  | .QUALITY_UNAVAILABLE => "QUALITY_UNAVAILABLE"
  | .UNKNOWN_ERROR => "UNKNOWN_ERROR"

/-- The response envelope of src/app/types.ts (interface NBScraperResponse):
the producer string, the status flag, and the optional data and error
fields. utils.ts constructs the producer field from the constant CREATOR. -/
structure NBScraperResponse (α : Type) : Type where
  library : String
  status : Bool
  data : Option α
  error : Option String
deriving DecidableEq, Repr

/-- The constant CREATOR of src/app/utils.ts:23. -/
def CREATOR : String := "nb-scraper"

/-- createSuccessResponse (src/app/utils.ts:102-108). -/
def createSuccessResponse {α : Type} (data : α) : NBScraperResponse α :=
  { library := CREATOR, status := true, data := some data, error := none }

/-- The error argument of createErrorResponse, following its declared type
`ScraperError | Error | string` (src/app/utils.ts:66): a plain string, an
Error instance carrying its name and message, or a structured ScraperError
carrying an explicit type and a message. -/
inductive ErrorInput : Type
  | str (s : String)
  | jsError (name message : String)
  | scraperError (type : ScraperErrorType) (message : String)
deriving DecidableEq, Repr

/-- A context object passed to createErrorResponse, abstracted to the outcome
of `JSON.stringify` on it: `some s` when the object serializes to the string
`s`, `none` when serialization throws (a context containing a circular
reference). -/
structure Ctx : Type where
  stringifyResult : Option String
deriving DecidableEq, Repr

/-- An exception escaping a modelled JavaScript function: the TypeError that
`JSON.stringify` raises on a circular structure, or that reading a property
of undefined raises. -/
inductive JsThrow : Type
  | typeError
deriving DecidableEq, Repr

/-- The fragment `${context ? ` | Context: ${JSON.stringify(context)}` : ''}`
of src/app/utils.ts:93: the empty string without a context, the serialized
context behind a separator with one, and a thrown TypeError when
`JSON.stringify` fails on it. -/
def contextFragment (context : Option Ctx) : Except JsThrow String :=
  match context with
  | none => .ok ""
  | some c =>
    match c.stringifyResult with
    | some json => .ok (" | Context: " ++ json)
    | none => .error .typeError

/-- createErrorResponse (src/app/utils.ts:65-95). The message and the type
come from the branch on the error argument: a plain string keeps the initial
UNKNOWN_ERROR type; an Error instance is classified by its name
(`error.name === 'AxiosError'`) and by substring tests on its message, in the
source's order; a structured ScraperError supplies both explicitly. The error
field is the template `[${errorType}] ${errorMessage}` followed by the
context fragment, whose serialization may throw. -/
def createErrorResponse (error : ErrorInput) (context : Option Ctx) :
    Except JsThrow (NBScraperResponse Empty) :=
  let parts : String × ScraperErrorType :=
    match error with
    | .str s => (s, .UNKNOWN_ERROR)
    | .jsError name message =>
      (message,
        if name == "AxiosError" || jsIncludes message "network" then .NETWORK_ERROR
        else if jsIncludes message "timeout" then .NETWORK_ERROR
        else if jsIncludes message "rate" || jsIncludes message "limit" then .RATE_LIMITED
        else .UNKNOWN_ERROR)
    | .scraperError type message => (message, type)
  match contextFragment context with
  | .error t => .error t
  | .ok fragment =>
    .ok { library := CREATOR, status := false, data := none,
          error := some ("[" ++ parts.2.toName ++ "] " ++ parts.1 ++ fragment) }

/-- An error thrown by one axios attempt, as far as makeRequest inspects it
(src/app/utils.ts:150-160): whether `axios.isAxiosError(error)` holds, the
error's message, and `error.response?.status` (none when no response
arrived, a network-level failure). -/
structure AxiosErr : Type where
  isAxiosError : Bool
  message : String
  responseStatus : Option Nat
deriving DecidableEq, Repr

/-- The non-retry test of src/app/utils.ts:150-159: an axios error whose
response status is truthy, at least 400, below 500 and not 429 is thrown
immediately. -/
def nonRetryable (e : AxiosErr) : Bool :=
  e.isAxiosError &&
    (match e.responseStatus with
     | some s => (s != 0) && decide (400 ≤ s) && decide (s < 500) && (s != 429)
     | none => false)

/-- A retryable failed attempt: the attempt threw and the thrown error does
not satisfy the non-retry test. -/
def retryableFailure {α : Type} : Except AxiosErr α → Bool
  | .ok _ => false
  | .error e => !(nonRetryable e)

/-- What a terminated run of makeRequest did: returned a response, threw the
error of an attempt, or threw the still-undefined `lastError` (reachable only
when the loop body never ran). -/
inductive Outcome (α : Type) : Type
  | success (response : α)
  | failure (e : AxiosErr)
  | threwUndefined
deriving DecidableEq, Repr

/-- Observable trace of one run of makeRequest: its outcome, how many
attempts (axios calls) it made, and the millisecond arguments of its calls to
sleep, in order. -/
structure RunResult (α : Type) : Type where
  outcome : Outcome α
  attempts : Nat
  sleeps : List Nat
deriving DecidableEq, Repr

/-- The retry loop of makeRequest (src/app/utils.ts:142-170), for a transport
that maps the attempt index to that attempt's outcome. `attempt` is the
current value of the loop counter and `remaining` the number of loop
iterations still allowed after this one (`retries - attempt`). On a success
the response is returned; on a failure passing the non-retry test the error
is thrown; otherwise, when this was the last allowed iteration the error is
thrown, else the loop sleeps `retryDelay * (attempt + 1)` milliseconds and
retries. -/
def makeRequestGo {α : Type} (transport : Nat → Except AxiosErr α)
    (retryDelay : Nat) : Nat → Nat → RunResult α
  | attempt, remaining =>
    match transport attempt with
    | .ok response => { outcome := .success response, attempts := 1, sleeps := [] }
    | .error e =>
      if nonRetryable e then
        { outcome := .failure e, attempts := 1, sleeps := [] }
      else
        match remaining with
        | 0 => { outcome := .failure e, attempts := 1, sleeps := [] }
        | r + 1 =>
          let rest := makeRequestGo transport retryDelay (attempt + 1) r
          { outcome := rest.outcome, attempts := rest.attempts + 1,
            sleeps := retryDelay * (attempt + 1) :: rest.sleeps }

/-- makeRequest (src/app/utils.ts:116-173) for a non-negative retries value:
the loop `for (let attempt = 0; attempt <= retries; attempt++)` starting at
attempt 0 with `retries` further iterations allowed. -/
def makeRequest {α : Type} (transport : Nat → Except AxiosErr α)
    (retries retryDelay : Nat) : RunResult α :=
  makeRequestGo transport retryDelay 0 retries

/-- makeRequest over the JavaScript-typed retries value, which a caller may
set negative: then the loop guard `0 <= retries` fails immediately, no
attempt is made, and line 172 throws `lastError` while it is still
undefined. -/
def makeRequestJS {α : Type} (transport : Nat → Except AxiosErr α)
    (retries : Int) (retryDelay : Nat) : RunResult α :=
  if retries < 0 then { outcome := .threwUndefined, attempts := 0, sleeps := [] }
  else makeRequest transport retries.toNat retryDelay

/-- JSON string escaping as JSON.stringify performs it, for the characters
the repository's inputs contain. -/
def jsonEscapeChar (c : Char) : List Char :=
  if c = '"' then ['\\', '"']
  else if c = '\\' then ['\\', '\\']
  else if c = '\n' then ['\\', 'n']
  else if c = '\r' then ['\\', 'r']
  else if c = '\t' then ['\\', 't']
  else [c]

/-- JSON serialization of a string value, quotes included. -/
def jsonString (s : String) : String :=
  ⟨'"' :: ((s.toList.map jsonEscapeChar).flatten ++ ['"'])⟩

/-- JSON.stringify on one JSValue standing as an object property value.
NaN serializes to null; a generic object is modelled as serializing to the
empty object. (An undefined property is dropped by its enclosing object,
which the callers below handle.) -/
def jsonOfJSValue : JSValue → String
  | .undefined => "null"
  | .null => "null"
  | .string s => jsonString s
  | .number n => toString n
  | .nan => "null"
  | .boolean b => cond b "true" "false"
  | .object => "\x7b\x7d"

/-- The serialized catch-context of pinterest (src/app/scrapers/pinterest.ts:
82-85): `JSON.stringify({ type: ScraperErrorType.NETWORK_ERROR, context:
{ query } })`. When the query value is undefined, JSON.stringify drops the
`query` key. -/
def pinterestCatchCtxJson (query : JSValue) : String :=
  match query with
  | .undefined => "\x7b\"type\":\"NETWORK_ERROR\",\"context\":\x7b\x7d\x7d"
  | q => "\x7b\"type\":\"NETWORK_ERROR\",\"context\":\x7b\"query\":"
           ++ jsonOfJSValue q ++ "\x7d\x7d"

/-- The serialized no-results context of pinterest (src/app/scrapers/
pinterest.ts:68-71): `JSON.stringify({ type: ScraperErrorType.
INVALID_RESPONSE, context: { query } })`. -/
def pinterestNoResultsCtxJson (query : JSValue) : String :=
  match query with
  | .undefined => "\x7b\"type\":\"INVALID_RESPONSE\",\"context\":\x7b\x7d\x7d"
  | q => "\x7b\"type\":\"INVALID_RESPONSE\",\"context\":\x7b\"query\":"
           ++ jsonOfJSValue q ++ "\x7d\x7d"

/-- The payload type of pinterest (interface PinterestData of
src/app/types.ts): the list of extracted links. -/
structure PinterestData : Type where
  result : List String
deriving DecidableEq, Repr

/-- What pinterest reads from the HEAD response: its headers. -/
structure HttpResponse : Type where
  headers : List (String × String)
deriving DecidableEq, Repr

/-- Header lookup `response.headers['link']`
(src/app/scrapers/pinterest.ts:66). -/
def lookupHeader (headers : List (String × String)) (key : String) :
    Option String :=
  match headers.find? (fun kv => kv.fst == key) with
  | some kv => some kv.snd
  | none => none

/-- Scanner for `[...linkHeader.matchAll(/<(.*?)>/gm)].map(v => v[1])`
(src/app/scrapers/pinterest.ts:75) on a single-line header value: each match
is the text between a `<` and the next `>` after it, and scanning resumes
after that `>`. `inside` says whether a `<` is open and `acc` holds the
reversed characters read since it. -/
def parseLinksChars (inside : Bool) (acc : List Char) :
    List Char → List (List Char)
  | [] => []
  | c :: cs =>
    if inside then
      if c == '>' then acc.reverse :: parseLinksChars false [] cs
      else parseLinksChars true (c :: acc) cs
    else
      if c == '<' then parseLinksChars true [] cs
      else parseLinksChars false [] cs

/-- Link extraction from the `link` response header of pinterest. -/
def parseLinks (s : String) : List String :=
  (parseLinksChars false [] s.toList).map (fun g => ⟨g⟩)

/-- A never-typed envelope re-read at another payload type, as TypeScript
lets `NBScraperResponse<never>` stand for any `NBScraperResponse<T>`. -/
def NBScraperResponse.withoutData {α : Type} (r : NBScraperResponse Empty) :
    NBScraperResponse α :=
  { library := r.library, status := r.status, data := none, error := r.error }

/-- pinterest (src/app/scrapers/pinterest.ts:37-87), over the abstract
transport standing for the axios call that makeRequest issues per attempt.
The result carries the adapter's returned (or thrown) value and the number of
network attempts made. The try block validates the query, then calls
makeRequest with the caller's options; the catch block wraps any thrown error
through createErrorResponse with the `{ type: NETWORK_ERROR, context:
{ query } }` object passed as the context argument. A validation failure is
thus caught before any network call. When the loop threw its undefined
`lastError`, the catch block's `(error as Error).message` read throws a
TypeError of its own. -/
def pinterest (query : JSValue) (transport : Nat → Except AxiosErr HttpResponse)
    (retries : Int) (retryDelay : Nat) :
    Except JsThrow (NBScraperResponse PinterestData) × Nat :=
  match validateRequiredParams [("query", query)] ["query"] with
  | .error msg =>
    ((createErrorResponse (.jsError "Error" msg)
        (some ⟨some (pinterestCatchCtxJson query)⟩)).map .withoutData, 0)
  | .ok _ =>
    let run := makeRequestJS transport retries retryDelay
    match run.outcome with
    | .success response =>
      (match lookupHeader response.headers "link" with
       | none =>
         (createErrorResponse (.str "No results found for the query")
             (some ⟨some (pinterestNoResultsCtxJson query)⟩)).map .withoutData
       | some link => .ok (createSuccessResponse ⟨parseLinks link⟩),
       run.attempts)
    | .failure e =>
      ((createErrorResponse
          (.jsError (if e.isAxiosError then "AxiosError" else "Error") e.message)
          (some ⟨some (pinterestCatchCtxJson query)⟩)).map .withoutData,
       run.attempts)
    | .threwUndefined => (.error .typeError, run.attempts)

/-!
Claim-side definitions. The three definitions below follow the words of the
amended classification contract for createErrorResponse, to be compared with
the embedding above: the error kind is the explicit kind when one is
supplied; for an Error instance it is pattern-matched from the message text
(a transport-failure marker or the substring "network" gives the network
kind, "timeout" gives the network kind, "rate" or "limit" gives the
rate-limited kind, anything else the unknown kind); a plain string always
keeps the unknown kind. The error field is `[<KIND>] <message>` with
` | Context: ` and the serialized context appended when a context is given.
-/

/-- Error kind selected by the amended contract. -/
def amendedKind : ErrorInput → ScraperErrorType
  | .str _ => .UNKNOWN_ERROR
  | .jsError name message =>
    if name == "AxiosError" || jsIncludes message "network" then .NETWORK_ERROR
    else if jsIncludes message "timeout" then .NETWORK_ERROR
    else if jsIncludes message "rate" || jsIncludes message "limit" then .RATE_LIMITED
    else .UNKNOWN_ERROR
  | .scraperError type _ => type

/-- Message extracted by the amended contract. -/
def amendedMessage : ErrorInput → String
  | .str s => s
  | .jsError _ message => message
  | .scraperError _ message => message

/-- The error field the amended contract prescribes (for a context that
serializes; a failing serialization is the subject of a separate claim). -/
def amendedErrorText (e : ErrorInput) (context : Option Ctx) : String :=
  "[" ++ (amendedKind e).toName ++ "] " ++ amendedMessage e ++
    (match context with
     | none => ""
     | some c =>
       match c.stringifyResult with
       | some json => " | Context: " ++ json
       | none => "")

/-! Validator lemmas. -/

/-- checkRequired passes a value exactly when the value is not one the
validator rejects. -/
theorem checkRequired_eq_none (p : String) (v : JSValue) :
    checkRequired p v = none ↔ invalidValue v = false := by
  cases v with
  | undefined => simp [checkRequired, invalidValue]
  | null => simp [checkRequired, invalidValue]
  | string s =>
    by_cases h : s = ""
    · subst h
      have h0 : jsTrim "" = "" := rfl
      simp [checkRequired, invalidValue, h0]
    · simp only [checkRequired, invalidValue, isEmptyTrimmedString]
      rw [if_neg (by simp [h])]
      by_cases ht : (jsTrim s == "") = true
      · rw [if_pos ht]; simp [ht]
      · rw [if_neg ht]
        simp only [Bool.not_eq_true] at ht
        simp [ht]
  | number n => simp [checkRequired, invalidValue, isEmptyTrimmedString]
  | nan => simp [checkRequired, invalidValue, isEmptyTrimmedString]
  | boolean b => simp [checkRequired, invalidValue, isEmptyTrimmedString]
  | object => simp [checkRequired, invalidValue, isEmptyTrimmedString]

/-- The validator throws exactly when some required name's value is one it
rejects. -/
theorem validateRequiredParams_throws_iff (params : List (String × JSValue)) :
    ∀ required : List String,
      throws (validateRequiredParams params required) = true ↔
        ∃ p, p ∈ required ∧ invalidValue (jsGet params p) = true := by
  intro required
  induction required with
  | nil => simp [validateRequiredParams, throws]
  | cons p rest ih =>
    cases hc : checkRequired p (jsGet params p) with
    | some msg =>
      have hv : invalidValue (jsGet params p) = true := by
        rcases hi : invalidValue (jsGet params p) with _ | _
        · exact absurd hc (by simp [(checkRequired_eq_none p _).2 hi])
        · rfl
      simp only [validateRequiredParams, hc]
      exact iff_of_true rfl ⟨p, by simp, hv⟩
    | none =>
      have hv : invalidValue (jsGet params p) = false :=
        (checkRequired_eq_none p _).1 hc
      simp only [validateRequiredParams, hc]
      rw [ih]
      constructor
      · rintro ⟨q, hq, hqv⟩
        exact ⟨q, by simp [hq], hqv⟩
      · rintro ⟨q, hq, hqv⟩
        rcases List.mem_cons.1 hq with rfl | hq
        · exact absurd hqv (by simp [hv])
        · exact ⟨q, hq, hqv⟩

/-- When every name before `p` passes and `p` fails with `msg`, the whole
validation throws `msg`, whatever comes after `p`. -/
theorem validateRequiredParams_first_invalid (params : List (String × JSValue)) :
    ∀ (pre : List String) (p : String) (post : List String) (msg : String),
      (∀ q, q ∈ pre → invalidValue (jsGet params q) = false) →
      checkRequired p (jsGet params p) = some msg →
      validateRequiredParams params (pre ++ p :: post) = .error msg := by
  intro pre
  induction pre with
  | nil =>
    intro p post msg _ hp
    simp [validateRequiredParams, hp]
  | cons q rest ih =>
    intro p post msg hpre hp
    have hq : checkRequired q (jsGet params q) = none :=
      (checkRequired_eq_none _ _).2 (hpre q (by simp))
    simp only [List.cons_append, validateRequiredParams, hq]
    exact ih p post msg (fun r hr => hpre r (by simp [hr])) hp

/-! Executor lemmas: how one step of the retry loop unfolds, and the
attempt counts, outcomes and sleep traces of whole runs. -/

/-- A successful attempt returns at once. -/
theorem makeRequestGo_ok {α : Type} (t : Nat → Except AxiosErr α)
    (d a rem : Nat) (r : α) (h : t a = .ok r) :
    makeRequestGo t d a rem = ⟨.success r, 1, []⟩ := by
  conv_lhs => unfold makeRequestGo
  rw [h]

/-- an attempt failing the non-retry test throws at once. -/
theorem makeRequestGo_nonretryable {α : Type} (t : Nat → Except AxiosErr α)
    (d a rem : Nat) (e : AxiosErr) (h : t a = .error e)
    (hn : nonRetryable e = true) :
    makeRequestGo t d a rem = ⟨.failure e, 1, []⟩ := by
  conv_lhs => unfold makeRequestGo
  rw [h]
  simp [hn]

/-- With no iteration left, a failing attempt throws its error. -/
theorem makeRequestGo_last {α : Type} (t : Nat → Except AxiosErr α)
    (d a : Nat) (e : AxiosErr) (h : t a = .error e) :
    makeRequestGo t d a 0 = ⟨.failure e, 1, []⟩ := by
  conv_lhs => unfold makeRequestGo
  rw [h]
  by_cases hn : nonRetryable e = true
  · simp [hn]
  · simp [hn]

/-- A retryable failure with iterations left sleeps and recurses. -/
theorem makeRequestGo_retry {α : Type} (t : Nat → Except AxiosErr α)
    (d a : Nat) (e : AxiosErr) (r : Nat) (h : t a = .error e)
    (hn : nonRetryable e = false) :
    makeRequestGo t d a (r + 1) =
      ⟨(makeRequestGo t d (a + 1) r).outcome,
       (makeRequestGo t d (a + 1) r).attempts + 1,
       d * (a + 1) :: (makeRequestGo t d (a + 1) r).sleeps⟩ := by
  conv_lhs => unfold makeRequestGo
  rw [h]
  simp [hn]

/-- Every run makes at least one attempt. -/
theorem makeRequestGo_attempts_pos {α : Type} (t : Nat → Except AxiosErr α)
    (d : Nat) : ∀ (a rem : Nat), 1 ≤ (makeRequestGo t d a rem).attempts := by
  intro a rem
  cases h : t a with
  | ok r => rw [makeRequestGo_ok t d a rem r h]
  | error e =>
    cases hn : nonRetryable e with
    | true => rw [makeRequestGo_nonretryable t d a rem e h hn]
    | false =>
      cases rem with
      | zero => rw [makeRequestGo_last t d a e h]
      | succ r =>
        rw [makeRequestGo_retry t d a e r h hn]
        exact Nat.succ_le_succ (Nat.zero_le _)

/-- A run allowed `rem` further iterations makes at most `rem + 1`
attempts. -/
theorem makeRequestGo_attempts_le {α : Type} (t : Nat → Except AxiosErr α)
    (d : Nat) : ∀ (rem a : Nat),
    (makeRequestGo t d a rem).attempts ≤ rem + 1 := by
  intro rem
  induction rem with
  | zero =>
    intro a
    cases h : t a with
    | ok r => rw [makeRequestGo_ok t d a 0 r h]
    | error e => rw [makeRequestGo_last t d a e h]
  | succ r ih =>
    intro a
    cases h : t a with
    | ok x =>
      rw [makeRequestGo_ok t d a (r + 1) x h]
      show 1 ≤ r + 1 + 1
      omega
    | error e =>
      cases hn : nonRetryable e with
      | true =>
        rw [makeRequestGo_nonretryable t d a (r + 1) e h hn]
        show 1 ≤ r + 1 + 1
        omega
      | false =>
        rw [makeRequestGo_retry t d a e r h hn]
        have := ih (a + 1)
        show (makeRequestGo t d (a + 1) r).attempts + 1 ≤ r + 1 + 1
        omega

/-- When every attempt in range fails retryably, the run uses every attempt
and throws the error of the last one. -/
theorem makeRequestGo_all_fail {α : Type} (t : Nat → Except AxiosErr α)
    (d : Nat) : ∀ (rem a : Nat),
    (∀ i, i ≤ rem → retryableFailure (t (a + i)) = true) →
    (makeRequestGo t d a rem).attempts = rem + 1 ∧
    ∀ e, t (a + rem) = .error e →
      (makeRequestGo t d a rem).outcome = .failure e := by
  intro rem
  induction rem with
  | zero =>
    intro a hall
    have h0 := hall 0 (Nat.le_refl 0)
    rw [Nat.add_zero] at h0
    cases h : t a with
    | ok r => rw [h] at h0; simp [retryableFailure] at h0
    | error e0 =>
      rw [makeRequestGo_last t d a e0 h]
      refine ⟨rfl, ?_⟩
      intro e he
      rw [Nat.add_zero, h] at he
      cases he
      rfl
  | succ r ih =>
    intro a hall
    have h0 := hall 0 (Nat.zero_le _)
    rw [Nat.add_zero] at h0
    cases h : t a with
    | ok x => rw [h] at h0; simp [retryableFailure] at h0
    | error e0 =>
      have hn : nonRetryable e0 = false := by
        rw [h] at h0
        simpa [retryableFailure] using h0
      rw [makeRequestGo_retry t d a e0 r h hn]
      have ihh := ih (a + 1) (fun i hi => by
        have := hall (i + 1) (Nat.succ_le_succ hi)
        rwa [show a + (i + 1) = (a + 1) + i by omega] at this)
      refine ⟨by simp [ihh.1], ?_⟩
      intro e he
      have := ihh.2 e (by rwa [show (a + 1) + r = a + (r + 1) by omega])
      simpa using this

/-- When the first `j` attempts fail retryably and attempt `j` (0-based)
succeeds, the run returns that response after `j + 1` attempts. -/
theorem makeRequestGo_first_success {α : Type} (t : Nat → Except AxiosErr α)
    (d : Nat) : ∀ (j a rem : Nat) (r : α), j ≤ rem →
    (∀ i, i < j → retryableFailure (t (a + i)) = true) →
    t (a + j) = .ok r →
    (makeRequestGo t d a rem).attempts = j + 1 ∧
    (makeRequestGo t d a rem).outcome = .success r := by
  intro j
  induction j with
  | zero =>
    intro a rem r _ _ hok
    rw [Nat.add_zero] at hok
    rw [makeRequestGo_ok t d a rem r hok]
    exact ⟨rfl, rfl⟩
  | succ jj ih =>
    intro a rem r hle hfail hok
    cases rem with
    | zero => omega
    | succ rr =>
      have h0 := hfail 0 (Nat.succ_pos jj)
      rw [Nat.add_zero] at h0
      cases h : t a with
      | ok x => rw [h] at h0; simp [retryableFailure] at h0
      | error e0 =>
        have hn : nonRetryable e0 = false := by
          rw [h] at h0
          simpa [retryableFailure] using h0
        rw [makeRequestGo_retry t d a e0 rr h hn]
        have step := ih (a + 1) rr r (by omega)
          (fun i hi => by
            have := hfail (i + 1) (by omega)
            rwa [show a + (i + 1) = (a + 1) + i by omega] at this)
          (by rw [show a + 1 + jj = a + (jj + 1) by omega]; exact hok)
        exact ⟨by simp [step.1], by simp [step.2]⟩

/-- The sleep trace of a run: one sleep after every attempt but the last,
the sleep after the (0-based) attempt `a + k` lasting `d * (a + k + 1)`
milliseconds. -/
theorem makeRequestGo_sleeps {α : Type} (t : Nat → Except AxiosErr α)
    (d : Nat) : ∀ (rem a : Nat),
    (makeRequestGo t d a rem).sleeps =
      (List.range ((makeRequestGo t d a rem).attempts - 1)).map
        (fun k => d * (a + k + 1)) := by
  intro rem
  induction rem with
  | zero =>
    intro a
    cases h : t a with
    | ok r => rw [makeRequestGo_ok t d a 0 r h]; simp
    | error e => rw [makeRequestGo_last t d a e h]; simp
  | succ r ih =>
    intro a
    cases h : t a with
    | ok x => rw [makeRequestGo_ok t d a (r + 1) x h]; simp
    | error e =>
      cases hn : nonRetryable e with
      | true => rw [makeRequestGo_nonretryable t d a (r + 1) e h hn]; simp
      | false =>
        rw [makeRequestGo_retry t d a e r h hn]
        have hpos := makeRequestGo_attempts_pos t d (a + 1) r
        obtain ⟨m, hm⟩ : ∃ m, (makeRequestGo t d (a + 1) r).attempts = m + 1 :=
          ⟨(makeRequestGo t d (a + 1) r).attempts - 1, by omega⟩
        simp only [ih (a + 1), hm, Nat.add_sub_cancel]
        rw [List.range_succ_eq_map, List.map_cons, List.map_map]
        have h2 : List.map ((fun k => d * (a + k + 1)) ∘ Nat.succ) (List.range m) =
            List.map (fun k => d * (a + 1 + k + 1)) (List.range m) := by
          apply List.map_congr_left
          intro k _
          simp only [Function.comp_apply, Nat.succ_eq_add_one]
          ring
        rw [h2]

/-- C1: for every request whose attempt fails with an HTTP status code in
[400,500) other than 429, makeRequest propagates that failure immediately
after exactly one attempt, for every configured retries value: no retry
attempt and no sleep occurs. -/
theorem makeRequest_nonretryable_fails_fast {α : Type}
    (t : Nat → Except AxiosErr α) (retries retryDelay : Nat) (e : AxiosErr)
    (s : Nat) (h : t 0 = .error e) (hs : e.isAxiosError = true)
    (hst : e.responseStatus = some s) (h400 : 400 ≤ s) (h500 : s < 500)
    (h429 : s ≠ 429) :
    makeRequest t retries retryDelay = ⟨.failure e, 1, []⟩ := by
  have hn : nonRetryable e = true := by
    simp only [nonRetryable, hs, hst, Bool.true_and]
    simp only [bne_iff_ne, ne_eq, Bool.and_eq_true, decide_eq_true_eq]
    refine ⟨⟨by omega, by omega⟩, by omega⟩
  exact makeRequestGo_nonretryable t retryDelay 0 retries e h hn

/-- C1 witness: a transport answering 404 immediately, with retries
configured to 5, yields exactly one attempt, no sleep, and the 404 error. -/
theorem makeRequest_nonretryable_fails_fast_witness :
    makeRequest
      (fun _ => (Except.error ⟨true, "Request failed with status code 404", some 404⟩ :
        Except AxiosErr Unit)) 5 1000 =
      ⟨.failure ⟨true, "Request failed with status code 404", some 404⟩, 1, []⟩ :=
  makeRequest_nonretryable_fails_fast _ 5 1000 _ 404 rfl rfl rfl
    (by omega) (by omega) (by omega)

/-- C2: makeRequest performs at most retries + 1 attempts; if every attempt
fails retryably it propagates the final failure after exactly retries + 1
attempts; and if the 0-based attempt j succeeds after retryable failures it
returns that response after exactly j + 1 attempts. -/
theorem makeRequest_retry_semantics {α : Type} (t : Nat → Except AxiosErr α)
    (retries retryDelay : Nat) :
    ((makeRequest t retries retryDelay).attempts ≤ retries + 1) ∧
    ((∀ i, i ≤ retries → retryableFailure (t i) = true) →
      (makeRequest t retries retryDelay).attempts = retries + 1 ∧
      ∀ e, t retries = .error e →
        (makeRequest t retries retryDelay).outcome = .failure e) ∧
    (∀ (j : Nat) (r : α), j ≤ retries →
      (∀ i, i < j → retryableFailure (t i) = true) →
      t j = .ok r →
      (makeRequest t retries retryDelay).attempts = j + 1 ∧
      (makeRequest t retries retryDelay).outcome = .success r) := by
  refine ⟨makeRequestGo_attempts_le t retryDelay retries 0, ?_, ?_⟩
  · intro hall
    have h := makeRequestGo_all_fail t retryDelay retries 0
      (fun i hi => by simpa using hall i hi)
    exact ⟨h.1, fun e he => h.2 e (by simpa using he)⟩
  · intro j r hj hfail hok
    exact makeRequestGo_first_success t retryDelay j 0 retries r hj
      (fun i hi => by simpa using hfail i hi) (by simpa using hok)

/-- C2 witness: a transport answering 429 twice then 200, with retries = 3,
makes exactly 3 attempts, returns the 200 response, and slept twice. -/
theorem makeRequest_retry_semantics_witness :
    makeRequest
      (fun i => if i < 2
        then (Except.error ⟨true, "Request failed with status code 429", some 429⟩ :
          Except AxiosErr Nat)
        else Except.ok 200) 3 1000 =
      ⟨.success 200, 3, [1000, 2000]⟩ := by
  have h := (makeRequest_retry_semantics
    (fun i => if i < 2
      then (Except.error ⟨true, "Request failed with status code 429", some 429⟩ :
        Except AxiosErr Nat)
      else Except.ok 200) 3 1000).2.2 2 200 (by omega) (by decide) (by norm_num)
  rfl

/-- C3: between consecutive attempts makeRequest sleeps
retryDelay * (attemptIndex + 1) milliseconds, where attemptIndex is the
0-based index of the attempt that just failed, and no sleep follows the
final attempt: the sleep trace is exactly the map of i ↦ retryDelay * (i+1)
over the indices of all attempts but the last. -/
theorem makeRequest_backoff_sleeps {α : Type} (t : Nat → Except AxiosErr α)
    (retries retryDelay : Nat) :
    (makeRequest t retries retryDelay).sleeps =
      (List.range ((makeRequest t retries retryDelay).attempts - 1)).map
        (fun i => retryDelay * (i + 1)) := by
  have h := makeRequestGo_sleeps t retryDelay retries 0
  simpa [makeRequest] using h

/-- C3 witness: with retries = 3, retryDelay = 1000 and a transport that
always fails retryably, the run makes 4 attempts and sleeps 1000, 2000,
3000 ms in that order. -/
theorem makeRequest_backoff_sleeps_witness :
    makeRequest
      (fun _ => (Except.error ⟨true, "Request failed with status code 429", some 429⟩ :
        Except AxiosErr Unit)) 3 1000 =
      ⟨.failure ⟨true, "Request failed with status code 429", some 429⟩, 4,
       [1000, 2000, 3000]⟩ := by
  rfl

/-- C9: when makeRequest is called with a negative retries value, the loop
body never runs: no attempt is made, no sleep occurs, and the function
throws the still-undefined lastError rather than a response or a classified
failure. -/
theorem makeRequestJS_negative_retries {α : Type} (t : Nat → Except AxiosErr α)
    (retries : Int) (retryDelay : Nat) (h : retries < 0) :
    makeRequestJS t retries retryDelay = ⟨.threwUndefined, 0, []⟩ := by
  simp [makeRequestJS, h]

/-- C9 witness: retries = -1 makes no attempt at all even for a transport
that would succeed. -/
theorem makeRequestJS_negative_retries_witness :
    makeRequestJS (fun _ => (Except.ok () : Except AxiosErr Unit)) (-1) 1000 =
      ⟨.threwUndefined, 0, []⟩ :=
  makeRequestJS_negative_retries _ (-1) 1000 (by norm_num)

/-- C4: the code contradicts the claim here. createErrorResponse evaluates
`JSON.stringify(context)` unguarded (src/app/utils.ts:93), so a context that
fails to serialize — one containing a circular reference — makes the call
throw a TypeError instead of returning an envelope. -/
theorem createErrorResponse_circular_context_throws :
    createErrorResponse (.str "boom") (some ⟨none⟩) = .error .typeError := rfl

/-- C5 counterexample: the claim says a plain-string error is pattern-matched
from the message text, so "network down" should carry the NETWORK_ERROR tag;
the code classifies only Error instances and leaves a plain string at
UNKNOWN_ERROR. -/
theorem createErrorResponse_string_not_classified :
    jsIncludes "network down" "network" = true ∧
    createErrorResponse (.str "network down") none =
      .ok ⟨"nb-scraper", false, none, some "[UNKNOWN_ERROR] network down"⟩ ∧
    charsLeadWith "[NETWORK_ERROR]".toList
      "[UNKNOWN_ERROR] network down".toList = false := by
  refine ⟨by decide, rfl, by decide⟩

/-- C5 (amended): for a structured ScraperError the kind is the explicit
kind; for an Error instance it is pattern-matched from the message text
(transport marker or "network" gives NETWORK_ERROR, "timeout" gives
NETWORK_ERROR, "rate" or "limit" gives RATE_LIMITED, otherwise
UNKNOWN_ERROR); a plain string always keeps UNKNOWN_ERROR; and, whenever the
supplied context serializes, the resulting error field is exactly
`[<KIND>] <message>` with ` | Context: ` plus the serialized context appended
when a context is given. -/
theorem createErrorResponse_amended_contract (e : ErrorInput)
    (context : Option Ctx)
    (h : ∀ c, context = some c → c.stringifyResult ≠ none) :
    createErrorResponse e context =
      .ok ⟨CREATOR, false, none, some (amendedErrorText e context)⟩ := by
  cases context with
  | none => cases e <;> rfl
  | some c =>
    cases hres : c.stringifyResult with
    | none => exact absurd hres (h c rfl)
    | some json =>
      cases e with
      | str s =>
        simp only [createErrorResponse, contextFragment, amendedErrorText,
          amendedKind, amendedMessage, hres]
      | jsError name message =>
        simp only [createErrorResponse, contextFragment, amendedErrorText,
          amendedKind, amendedMessage, hres]
      | scraperError type message =>
        simp only [createErrorResponse, contextFragment, amendedErrorText,
          amendedKind, amendedMessage, hres]

/-- C5 witness: an Error whose message contains "timeout", with a context
serializing to the empty object, is tagged NETWORK_ERROR and carries the
context fragment; scenario D's failure("boom") is tagged UNKNOWN_ERROR. -/
theorem createErrorResponse_amended_contract_witness :
    createErrorResponse (.jsError "Error" "connection timeout")
        (some ⟨some "\x7b\x7d"⟩) =
      .ok ⟨"nb-scraper", false, none,
        some "[NETWORK_ERROR] connection timeout | Context: \x7b\x7d"⟩ ∧
    createErrorResponse (.str "boom") none =
      .ok ⟨"nb-scraper", false, none, some "[UNKNOWN_ERROR] boom"⟩ :=
  ⟨Eq.trans (createErrorResponse_amended_contract
      (.jsError "Error" "connection timeout") (some ⟨some "\x7b\x7d"⟩)
      (fun c hc => by cases hc; simp)) rfl,
   Eq.trans (createErrorResponse_amended_contract (.str "boom") none
      (fun c hc => by cases hc)) rfl⟩

/-- C6: every envelope built by createSuccessResponse has status true, its
payload defined and no error field; every envelope createErrorResponse
returns (when it returns one) has status false, an error field and no
payload. Exactly one of the two fields is defined, matching the status
flag. -/
theorem envelope_exclusivity {α : Type} (d : α) (e : ErrorInput)
    (context : Option Ctx) :
    ((createSuccessResponse d).status = true ∧
     (createSuccessResponse d).data = some d ∧
     (createSuccessResponse d).error = none) ∧
    (∀ r, createErrorResponse e context = .ok r →
      r.status = false ∧ r.data = none ∧ r.error ≠ none) := by
  refine ⟨⟨rfl, rfl, rfl⟩, ?_⟩
  intro r h
  unfold createErrorResponse at h
  rcases hf : contextFragment context with t | fragment <;> rw [hf] at h
  · cases h
  · cases h
    exact ⟨rfl, rfl, by simp⟩

/-- C7: validateRequiredParams throws exactly when some required name's value
is absent (undefined or null), the empty string, or a whitespace-only
string; any other values — and any extra entries of the params object — let
it return normally. In particular validate with url bound to the empty
string fails naming the parameter url. (The embedding is purely functional,
so the inputs are unchanged by construction.) -/
theorem validateRequiredParams_spec (params : List (String × JSValue))
    (required : List String) :
    (throws (validateRequiredParams params required) = true ↔
       ∃ p, p ∈ required ∧ invalidValue (jsGet params p) = true) ∧
    validateRequiredParams [("url", .string "")] ["url"] =
      .error "Parameter 'url' is required and cannot be empty" :=
  ⟨validateRequiredParams_throws_iff params required, rfl⟩

/-- C10: the validator accepts every defined non-string value — the falsy
values 0, false and NaN among them — and when several required names are
invalid it reports the message of the first invalid name in the order of the
required list, whatever names follow it. -/
theorem validateRequiredParams_falsy_and_first
    (params : List (String × JSValue)) (pre post : List String)
    (p : String) (msg : String)
    (hpre : ∀ q, q ∈ pre → invalidValue (jsGet params q) = false)
    (hp : checkRequired p (jsGet params p) = some msg) :
    (∀ v : JSValue, (∀ s, v ≠ .string s) → v ≠ .undefined → v ≠ .null →
       invalidValue v = false) ∧
    validateRequiredParams
      [("a", .number 0), ("b", .boolean false), ("c", .nan)]
      ["a", "b", "c"] = .ok () ∧
    validateRequiredParams params (pre ++ p :: post) = .error msg := by
  refine ⟨?_, rfl, ?_⟩
  · intro v hs hu hn
    cases v with
    | string s => exact absurd rfl (hs s)
    | undefined => exact absurd rfl hu
    | null => exact absurd rfl hn
    | number n => rfl
    | nan => rfl
    | boolean b => rfl
    | object => rfl
  · exact validateRequiredParams_first_invalid params pre p post msg hpre hp

/-- C10 witness: with x bound to false (accepted), y to null and z to
undefined, validation reports y — the first invalid name — and its
absent-value message, leaving z unchecked. -/
theorem validateRequiredParams_falsy_and_first_witness :
    (∀ v : JSValue, (∀ s, v ≠ .string s) → v ≠ .undefined → v ≠ .null →
       invalidValue v = false) ∧
    validateRequiredParams
      [("a", .number 0), ("b", .boolean false), ("c", .nan)]
      ["a", "b", "c"] = .ok () ∧
    validateRequiredParams [("x", .boolean false), ("y", .null), ("z", .undefined)]
      (["x"] ++ "y" :: ["z"]) =
      .error "Parameter 'y' is required and cannot be empty" :=
  validateRequiredParams_falsy_and_first
    [("x", .boolean false), ("y", .null), ("z", .undefined)]
    ["x"] ["z"] "y" "Parameter 'y' is required and cannot be empty"
    (fun q hq => by
      rw [List.mem_singleton] at hq
      subst hq
      rfl)
    rfl

/-! Pinterest adapter lemmas. -/

/-- The only two messages the validator can throw for the required name
query. -/
theorem checkRequired_query_messages (v : JSValue) (msg : String)
    (h : checkRequired "query" v = some msg) :
    msg = "Parameter 'query' is required and cannot be empty" ∨
    msg = "Parameter 'query' cannot be an empty string" := by
  unfold checkRequired at h
  by_cases h1 : (v = .undefined ∨ v = .null ∨ v = .string "")
  · rw [if_pos h1] at h
    exact .inl ((Option.some.inj h).symm.trans rfl)
  · rw [if_neg h1] at h
    by_cases h2 : isEmptyTrimmedString v = true
    · rw [if_pos h2] at h
      exact .inr ((Option.some.inj h).symm.trans rfl)
    · rw [if_neg h2] at h
      cases h

/-- Neither validator message for query contains any of the substrings the
classifier looks for, so both classify as UNKNOWN_ERROR. -/
theorem query_validator_msg_unclassified (msg : String)
    (h : msg = "Parameter 'query' is required and cannot be empty" ∨
         msg = "Parameter 'query' cannot be an empty string") :
    jsIncludes msg "network" = false ∧ jsIncludes msg "timeout" = false ∧
    jsIncludes msg "rate" = false ∧ jsIncludes msg "limit" = false := by
  rcases h with rfl | rfl
  · exact ⟨by decide, by decide, by decide, by decide⟩
  · exact ⟨by decide, by decide, by decide, by decide⟩

/-- C8 counterexample: calling pinterest with an empty query makes no
network attempt and returns an error envelope, but the envelope's error
message nowhere carries the INVALID_PARAMETER kind tag: the validator's
exception is classified as UNKNOWN_ERROR (the NETWORK_ERROR the adapter
passes alongside ends up inside the serialized context only). -/
theorem pinterest_validation_error_lacks_param_tag :
    pinterest (.string "") (fun _ => .ok ⟨[]⟩) 3 1000 =
      (.ok ⟨"nb-scraper", false, none,
        some "[UNKNOWN_ERROR] Parameter 'query' is required and cannot be empty | Context: \x7b\"type\":\"NETWORK_ERROR\",\"context\":\x7b\"query\":\"\"\x7d\x7d"⟩,
       0) ∧
    jsIncludes
      "[UNKNOWN_ERROR] Parameter 'query' is required and cannot be empty | Context: \x7b\"type\":\"NETWORK_ERROR\",\"context\":\x7b\"query\":\"\"\x7d\x7d"
      "INVALID_PARAMETER" = false := by
  exact ⟨rfl, by decide⟩

/-- C8 (amended): when pinterest is called with a required parameter that is
absent, empty, or whitespace-only, no network request is made and the
adapter returns an error envelope rather than letting the validator's
exception propagate; the envelope's error message carries the UNKNOWN_ERROR
kind tag followed by the validator's message (not an invalid-parameter tag),
with the NETWORK_ERROR type the adapter supplies appearing only inside the
serialized context. -/
theorem pinterest_invalid_param_short_circuit (query : JSValue)
    (transport : Nat → Except AxiosErr HttpResponse)
    (retries : Int) (retryDelay : Nat) (msg : String)
    (h : checkRequired "query" query = some msg) :
    pinterest query transport retries retryDelay =
      (.ok ⟨CREATOR, false, none,
        some ("[UNKNOWN_ERROR] " ++ msg ++
          (" | Context: " ++ pinterestCatchCtxJson query))⟩, 0) := by
  have hcls := query_validator_msg_unclassified msg
    (checkRequired_query_messages query msg h)
  have hval : validateRequiredParams [("query", query)] ["query"] = .error msg := by
    have hg : jsGet [("query", query)] "query" = query := rfl
    simp only [validateRequiredParams, hg, h]
  unfold pinterest
  rw [hval]
  simp only [createErrorResponse, contextFragment, hcls.1, hcls.2.1,
    hcls.2.2.1, hcls.2.2.2, Except.map, NBScraperResponse.withoutData]
  rfl

/-- C8 witness: a whitespace-only query short-circuits pinterest before any
network attempt, yielding the UNKNOWN_ERROR-tagged envelope. -/
theorem pinterest_invalid_param_short_circuit_witness :
    pinterest (.string "   ") (fun _ => .ok ⟨[]⟩) 3 1000 =
      (.ok ⟨"nb-scraper", false, none,
        some "[UNKNOWN_ERROR] Parameter 'query' cannot be an empty string | Context: \x7b\"type\":\"NETWORK_ERROR\",\"context\":\x7b\"query\":\"   \"\x7d\x7d"⟩,
       0) :=
  Eq.trans
    (pinterest_invalid_param_short_circuit (.string "   ") (fun _ => .ok ⟨[]⟩)
      3 1000 "Parameter 'query' cannot be an empty string" rfl)
    rfl

end NBScraper
